import Mathlib

/-!
# Verification of the attendease attendance pipeline

Shallow embedding of the attendance service of the attendease backend:
the statistics engine (`getStudentAttendanceStats`), the mark engine
(`markAttendance`, `updateAttendanceRecord`), the session manager
(`deleteSession`) and the websocket/notification fan-out, translated from
`src/services/attendance.service.ts`, `src/services/websocket.service.ts`
and `src/services/notification.service.ts`.

The persistence layer is modelled as an explicit in-memory database value
(`DB`); Prisma queries become list filters and finds, `$transaction`
becomes an atomic state update that either fully applies or leaves the
database unchanged, and the websocket / push / email side effects become
an explicit trace of `FanoutEffect` values.  JavaScript numbers are
modelled as `ℚ` (all arithmetic the service performs on them — `0.75`,
`0.25`, division of small integer counts, `Math.round(x*100)/100` — is
exact in binary doubles for every realistic input, so the rational
semantics coincides with the double semantics on the modelled domain).
-/

namespace Attendease

/-- Attendance mark for one student in one session (Prisma enum). -/
inductive AttendanceStatus
  | PRESENT
  | ABSENT
  | LATE
  | EXCUSED
deriving DecidableEq, Repr

/-- Derived standing of a student in a subject. -/
inductive Standing
  | GOOD
  | WARNING
  | CRITICAL
deriving DecidableEq, Repr

/-- Typed errors thrown by the service layer (`ApiError`). -/
inductive ApiError
  | notFound (msg : String)
  | forbidden (msg : String)
  | badRequest (msg : String)
  | internal (msg : String)
deriving DecidableEq, Repr

/-- A teacher profile row (only the fields the attendance pipeline reads). -/
structure Teacher where
  id : Nat
  userId : Nat
deriving DecidableEq, Repr

/-- A student profile row; `batchId` is nullable in the schema. -/
structure Student where
  id : Nat
  userId : Nat
  batchId : Option Nat
deriving DecidableEq, Repr

/-- A subject-enrollment row: one subject taught to one batch by one teacher. -/
structure SubjectEnrollment where
  id : Nat
  batchId : Nat
  teacherId : Nat
deriving DecidableEq, Repr

/-- An attendance session row. -/
structure AttendanceSession where
  id : Nat
  subjectEnrollmentId : Nat
  teacherId : Nat
deriving DecidableEq, Repr

/-- An attendance record row, unique per (sessionId, studentId). -/
structure AttendanceRecord where
  id : Nat
  sessionId : Nat
  studentId : Nat
  status : AttendanceStatus
  markedAt : Nat
deriving DecidableEq, Repr

/-- An audit row written by `updateAttendanceRecord`. -/
structure AttendanceEdit where
  recordId : Nat
  sessionId : Nat
  editedBy : Nat
  oldStatus : AttendanceStatus
  newStatus : AttendanceStatus
  reason : String
deriving DecidableEq, Repr

/-- The relational store, with the auto-increment counter for record ids. -/
structure DB where
  teachers : List Teacher
  students : List Student
  enrollments : List SubjectEnrollment
  sessions : List AttendanceSession
  records : List AttendanceRecord
  edits : List AttendanceEdit
  nextRecordId : Nat
deriving DecidableEq, Repr

/-- Result shape of `getStudentAttendanceStats` (`AttendanceStatsDTO`). -/
structure AttendanceStatsDTO where
  totalSessions : Nat
  present : Nat
  absent : Nat
  late : Nat
  excused : Nat
  percentage : ℚ
  status : Standing
deriving DecidableEq, Repr

/-- Embeds the query for all sessions of one enrollment,
`prisma.attendanceSession.findMany` filtered on `subjectEnrollmentId`. -/
def enrollmentSessions (db : DB) (enrollmentId : Nat) : List AttendanceSession :=
  db.sessions.filter (fun s => s.subjectEnrollmentId == enrollmentId)

/-- Embeds the query for the student's records among the enrollment's
sessions, `prisma.attendanceRecord.findMany` filtered on `studentId` and
membership of `sessionId` in the enrollment's session ids. -/
def studentEnrollmentRecords (db : DB) (studentId enrollmentId : Nat) :
    List AttendanceRecord :=
  db.records.filter (fun r =>
    r.studentId == studentId &&
    (enrollmentSessions db enrollmentId).any (fun s => s.id == r.sessionId))

/-- Embeds `records.filter((r) => r.status === st).length`. -/
def countStatus (recs : List AttendanceRecord) (st : AttendanceStatus) : Nat :=
  (recs.filter (fun r => r.status == st)).length

/-- Embeds `Math.round(x * 100) / 100`: round to two decimal places,
halves up. -/
def round2 (q : ℚ) : ℚ := (round (q * 100) : ℤ) / 100

/-- Embeds `AttendanceService.getStudentAttendanceStats`: percentage and standing of
one student in one enrollment. -/
def getStudentAttendanceStats (db : DB) (studentId enrollmentId : Nat) :
    AttendanceStatsDTO :=
  let totalSessions := (enrollmentSessions db enrollmentId).length
  if totalSessions = 0 then
    { totalSessions := 0, present := 0, absent := 0, late := 0, excused := 0
      percentage := 0, status := Standing.GOOD }
  else
    let recs := studentEnrollmentRecords db studentId enrollmentId
    let present := countStatus recs AttendanceStatus.PRESENT
    let absent := countStatus recs AttendanceStatus.ABSENT
    let late := countStatus recs AttendanceStatus.LATE
    let excused := countStatus recs AttendanceStatus.EXCUSED
    let attendedCount := present + late + excused
    let percentage : ℚ := (attendedCount : ℚ) / (totalSessions : ℚ) * 100
    let status :=
      if percentage < 65 then Standing.CRITICAL
      else if percentage < 75 then Standing.WARNING
      else Standing.GOOD
    { totalSessions := totalSessions, present := present, absent := absent
      late := late, excused := excused
      percentage := round2 percentage, status := status }

/-- One submitted record of a `markAttendance` payload. -/
structure MarkRecordInput where
  studentId : Nat
  status : AttendanceStatus
deriving DecidableEq, Repr

/-- The `markAttendance` payload (`MarkAttendanceDTO`). -/
structure MarkAttendanceDTO where
  sessionId : Nat
  records : List MarkRecordInput
deriving DecidableEq, Repr

/-- The `updateAttendanceRecord` payload (`UpdateAttendanceDTO`). -/
structure UpdateAttendanceDTO where
  status : AttendanceStatus
  reason : Option String
deriving DecidableEq, Repr

/-- Side effects emitted by the notification fan-out: websocket events
(`WebSocketService.emit*`), push notifications and e-mails
(`NotificationService`), and logger output of a caught fan-out error. -/
inductive FanoutEffect
  | attendanceMarked (batchId markedCount : Nat)
  | liveSessionStatus (enrollmentId sessionId totalStudents markedCount
      presentCount absentCount : Nat)
  | attendanceUpdated (userId : Nat) (newPercentage : ℚ) (status : Standing)
  | lowAttendanceAlert (userId : Nat) (percentage : ℚ) (sessionsNeeded : ℤ)
      (status : Standing)
  | attendanceEdited (userId recordId : Nat)
      (oldStatus newStatus : AttendanceStatus) (editedBy : Nat) (reason : String)
  | pushNotification (userId : Nat) (status : Standing)
  | emailAlert (userId : Nat)
  | logError (msg : String)
deriving DecidableEq, Repr

/-- One `prisma.attendanceRecord.upsert` keyed on `sessionId_studentId`:
update `status` and `markedAt` when a row with the key exists, insert a
fresh row otherwise. -/
def upsertRecord (sid now : Nat) (recs : List AttendanceRecord) (nextId : Nat)
    (input : MarkRecordInput) : List AttendanceRecord × Nat :=
  if recs.any (fun r => r.sessionId == sid && r.studentId == input.studentId) then
    (recs.map (fun r =>
      if r.sessionId == sid && r.studentId == input.studentId then
        { r with status := input.status, markedAt := now }
      else r), nextId)
  else
    (recs ++ [{ id := nextId, sessionId := sid, studentId := input.studentId,
                status := input.status, markedAt := now }], nextId + 1)

/-- The `prisma.$transaction(data.records.map(upsert))` of `markAttendance`. -/
def upsertAll (sid now : Nat) (inputs : List MarkRecordInput)
    (recs : List AttendanceRecord) (nextId : Nat) : List AttendanceRecord × Nat :=
  inputs.foldl (fun acc inp => upsertRecord sid now acc.1 acc.2 inp) (recs, nextId)

/-- Number of records bearing a given `(sessionId, studentId)` key. -/
def countKey (recs : List AttendanceRecord) (sid stu : Nat) : Nat :=
  (recs.filter (fun r => r.sessionId == sid && r.studentId == stu)).length

/-- The status carried by the final occurrence of a student in a payload. -/
def lastStatusFor : List MarkRecordInput → Nat → Option AttendanceStatus
  | [], _ => none
  | i :: rest, stu =>
    match lastStatusFor rest stu with
    | some st => some st
    | none => if i.studentId = stu then some i.status else none

/-- Embeds `data.reason || "No reason provided"`: the audit reason, defaulting to
the fixed placeholder when omitted (or, `||` being a JavaScript
falsiness check, empty). -/
def reasonOrDefault (reason : Option String) : String :=
  match reason with
  | none => "No reason provided"
  | some r => if r = "" then "No reason provided" else r

/-- The store state after the transactional upserts of `markAttendance`. -/
def markDbAfter (db : DB) (data : MarkAttendanceDTO) (now : Nat) : DB :=
  { db with
    records := (upsertAll data.sessionId now data.records db.records db.nextRecordId).1
    nextRecordId := (upsertAll data.sessionId now data.records db.records db.nextRecordId).2 }

/-- The store state after the audit-insert plus status-update transaction of
`updateAttendanceRecord`. -/
def updateDbAfter (db : DB) (recordId : Nat) (record : AttendanceRecord)
    (teacherUserId : Nat) (data : UpdateAttendanceDTO) : DB :=
  { db with
    edits := db.edits ++ [{ recordId := record.id, sessionId := record.sessionId
                            editedBy := teacherUserId, oldStatus := record.status
                            newStatus := data.status
                            reason := reasonOrDefault data.reason }]
    records := db.records.map (fun r =>
      if r.id == recordId then { r with status := data.status } else r) }

/-- The per-student step of the fan-out shared by `markAttendance` and
`updateAttendanceRecord`: recompute stats, emit `attendance_updated`, and
for WARNING/CRITICAL standing emit `low_attendance_alert` with
`sessionsNeeded = max(ceil((0.75*total - attended) / (1 - 0.75)), 1)`. -/
def studentFanout (db : DB) (studentId userId enrollmentId : Nat) :
    List FanoutEffect :=
  let stats := getStudentAttendanceStats db studentId enrollmentId
  FanoutEffect.attendanceUpdated userId stats.percentage stats.status ::
  (if stats.status = Standing.WARNING ∨ stats.status = Standing.CRITICAL then
    let attendedCount := stats.present + stats.late + stats.excused
    let requiredPercentage : ℚ := 0.75
    let sessionsNeeded : ℤ :=
      Int.ceil ((requiredPercentage * (stats.totalSessions : ℚ) - (attendedCount : ℚ)) /
        (1 - requiredPercentage))
    [FanoutEffect.lowAttendanceAlert userId stats.percentage
      (max sessionsNeeded 1) stats.status]
  else [])

/-- Embeds `AttendanceService.markAttendance` up to (and including) building the
websocket emission list: teacher lookup, session lookup, ownership check,
batch-membership validation of every submitted student, the transactional
upserts, and the fan-out payloads. -/
def markAttendanceCore (db : DB) (teacherUserId : Nat) (data : MarkAttendanceDTO)
    (now : Nat) : Except ApiError (DB × List FanoutEffect × Nat) :=
  match db.teachers.find? (fun t => t.userId == teacherUserId) with
  | none => Except.error (ApiError.notFound "Teacher profile not found")
  | some teacher =>
    match db.sessions.find? (fun s => s.id == data.sessionId) with
    | none => Except.error (ApiError.notFound "Session not found")
    | some session =>
      match db.enrollments.find? (fun e => e.id == session.subjectEnrollmentId) with
      | none => Except.error (ApiError.internal "Enrollment of session not found")
      | some enrollment =>
        if session.teacherId ≠ teacher.id then
          Except.error (ApiError.forbidden "You do not have access to this session")
        else
          let batchStudents :=
            db.students.filter (fun s => s.batchId == some enrollment.batchId)
          match data.records.find?
              (fun r => !(batchStudents.any (fun s => s.id == r.studentId))) with
          | some _ =>
            Except.error (ApiError.badRequest "Student is not in batch")
          | none =>
            let db' : DB := markDbAfter db data now
            let presentCount := (data.records.filter (fun r =>
              r.status == AttendanceStatus.PRESENT ||
              r.status == AttendanceStatus.LATE)).length
            let absentCount := (data.records.filter (fun r =>
              r.status == AttendanceStatus.ABSENT)).length
            let markedStudents := batchStudents.filter (fun s =>
              data.records.any (fun r => r.studentId == s.id))
            let effects :=
              FanoutEffect.attendanceMarked enrollment.batchId data.records.length ::
              FanoutEffect.liveSessionStatus session.subjectEnrollmentId session.id
                batchStudents.length data.records.length presentCount absentCount ::
              markedStudents.flatMap (fun s =>
                studentFanout db' s.id s.userId session.subjectEnrollmentId)
            Except.ok (db', effects, data.records.length)

/-- The `try { ...emissions... } catch (wsError) { logger.error(...) }` block
around the websocket fan-out: `none` means every emission succeeds; `some n`
means the `n`-th emission throws, so later emissions are skipped and the
error is swallowed and logged. -/
def runFanout (effects : List FanoutEffect) (wsFail : Option Nat) :
    List FanoutEffect :=
  match wsFail with
  | none => effects
  | some n => effects.take n ++ [FanoutEffect.logError "WebSocket emission failed"]

/-- Embeds `AttendanceService.markAttendance`, with the fan-out failure oracle. -/
def markAttendance (db : DB) (teacherUserId : Nat) (data : MarkAttendanceDTO)
    (now : Nat) (wsFail : Option Nat) :
    Except ApiError (DB × List FanoutEffect × Nat) :=
  match markAttendanceCore db teacherUserId data now with
  | Except.ok (db', effects, count) =>
    Except.ok (db', runFanout effects wsFail, count)
  | Except.error e => Except.error e

/-- Embeds `AttendanceService.updateAttendanceRecord` up to building the emission
list.  `txFail` simulates a mid-transaction persistence failure: the
transaction rolls back, so neither the audit insert nor the status update
survives. -/
def updateAttendanceRecordCore (db : DB) (recordId teacherUserId : Nat)
    (data : UpdateAttendanceDTO) (txFail : Bool) :
    Except ApiError (DB × List FanoutEffect) :=
  match db.teachers.find? (fun t => t.userId == teacherUserId) with
  | none => Except.error (ApiError.notFound "Teacher profile not found")
  | some teacher =>
    match db.records.find? (fun r => r.id == recordId) with
    | none => Except.error (ApiError.notFound "Attendance record not found")
    | some record =>
      match db.sessions.find? (fun s => s.id == record.sessionId) with
      | none => Except.error (ApiError.internal "Session of record not found")
      | some session =>
        match db.students.find? (fun s => s.id == record.studentId) with
        | none => Except.error (ApiError.internal "Student of record not found")
        | some student =>
          if session.teacherId ≠ teacher.id then
            Except.error (ApiError.forbidden "You cannot edit this attendance record")
          else if txFail then
            Except.error (ApiError.internal "Transaction failed")
          else
            let oldStatus := record.status
            let db' : DB := updateDbAfter db recordId record teacherUserId data
            let effects :=
              FanoutEffect.attendanceEdited student.userId record.id oldStatus
                data.status teacherUserId (reasonOrDefault data.reason) ::
              studentFanout db' record.studentId student.userId
                session.subjectEnrollmentId
            Except.ok (db', effects)

/-- Embeds `AttendanceService.updateAttendanceRecord`, with both failure oracles. -/
def updateAttendanceRecord (db : DB) (recordId teacherUserId : Nat)
    (data : UpdateAttendanceDTO) (txFail : Bool) (wsFail : Option Nat) :
    Except ApiError (DB × List FanoutEffect) :=
  match updateAttendanceRecordCore db recordId teacherUserId data txFail with
  | Except.ok (db', effects) => Except.ok (db', runFanout effects wsFail)
  | Except.error e => Except.error e

/-- Embeds `AttendanceService.deleteSession`: ownership check, then inside one
transaction re-count the session's records, abort with `BadRequest` when any
exist, delete the session otherwise. -/
def deleteSession (db : DB) (sessionId teacherUserId : Nat) :
    Except ApiError DB :=
  match db.teachers.find? (fun t => t.userId == teacherUserId) with
  | none => Except.error (ApiError.notFound "Teacher profile not found")
  | some teacher =>
    match db.sessions.find? (fun s => s.id == sessionId) with
    | none => Except.error (ApiError.notFound "Session not found")
    | some session =>
      if session.teacherId ≠ teacher.id then
        Except.error (ApiError.forbidden "You cannot delete this session")
      else
        let recordCount := (db.records.filter (fun r => r.sessionId == sessionId)).length
        if recordCount > 0 then
          Except.error (ApiError.badRequest
            "Cannot delete session with marked attendance. Edit records instead.")
        else
          Except.ok { db with sessions := db.sessions.filter (fun s => !(s.id == sessionId)) }

/-- Embeds `NotificationService.sendLowAttendanceAlert`: a push notification plus,
for CRITICAL standing only, an email alert.  Defined in the source but never
invoked from `markAttendance` or `updateAttendanceRecord`, whose fan-out
stops at the websocket emission. -/
def sendLowAttendanceAlert (db : DB) (studentUserId : Nat) (status : Standing) :
    List FanoutEffect :=
  match db.students.find? (fun s => s.userId == studentUserId) with
  | none => []
  | some _ =>
    FanoutEffect.pushNotification studentUserId status ::
    (if status = Standing.CRITICAL then [FanoutEffect.emailAlert studentUserId] else [])

/-- The caller's view of the store after `markAttendance`: a thrown
`ApiError` aborts before or inside the transaction, leaving it unchanged. -/
def applyMark (db : DB) (teacherUserId : Nat) (data : MarkAttendanceDTO)
    (now : Nat) (wsFail : Option Nat) : DB :=
  match markAttendance db teacherUserId data now wsFail with
  | Except.ok (db', _, _) => db'
  | Except.error _ => db

/-- The caller's view of the store after `updateAttendanceRecord`. -/
def applyUpdate (db : DB) (recordId teacherUserId : Nat)
    (data : UpdateAttendanceDTO) (txFail : Bool) (wsFail : Option Nat) : DB :=
  match updateAttendanceRecord db recordId teacherUserId data txFail wsFail with
  | Except.ok (db', _) => db'
  | Except.error _ => db

/-- The caller's view of the store after `deleteSession`. -/
def applyDelete (db : DB) (sessionId teacherUserId : Nat) : DB :=
  match deleteSession db sessionId teacherUserId with
  | Except.ok db' => db'
  | Except.error _ => db

/-- An empty store: no sessions, hence a percentage-0, GOOD statistics
result for any (student, enrollment) pair. -/
def dbNoSessions : DB := ⟨[], [], [], [], [], [], 0⟩

/-- One teacher, two batch students, one enrollment, one session, one
ABSENT record for student 1. -/
def dbOneAbsent : DB :=
  ⟨[⟨1, 10⟩], [⟨1, 20, some 1⟩, ⟨2, 21, some 1⟩], [⟨1, 1, 1⟩], [⟨1, 1, 1⟩],
   [⟨100, 1, 1, AttendanceStatus.ABSENT, 5⟩], [], 101⟩

/-- One teacher, one batch student, one enrollment, 10 sessions, 6 PRESENT
and 4 ABSENT records for the student: 60 %, CRITICAL. -/
def dbTen : DB :=
  ⟨[⟨1, 10⟩], [⟨1, 20, some 1⟩], [⟨1, 1, 1⟩],
   [⟨1, 1, 1⟩, ⟨2, 1, 1⟩, ⟨3, 1, 1⟩, ⟨4, 1, 1⟩, ⟨5, 1, 1⟩, ⟨6, 1, 1⟩,
    ⟨7, 1, 1⟩, ⟨8, 1, 1⟩, ⟨9, 1, 1⟩, ⟨10, 1, 1⟩],
   [⟨101, 1, 1, AttendanceStatus.PRESENT, 5⟩,
    ⟨102, 2, 1, AttendanceStatus.PRESENT, 5⟩,
    ⟨103, 3, 1, AttendanceStatus.PRESENT, 5⟩,
    ⟨104, 4, 1, AttendanceStatus.PRESENT, 5⟩,
    ⟨105, 5, 1, AttendanceStatus.PRESENT, 5⟩,
    ⟨106, 6, 1, AttendanceStatus.PRESENT, 5⟩,
    ⟨107, 7, 1, AttendanceStatus.ABSENT, 5⟩,
    ⟨108, 8, 1, AttendanceStatus.ABSENT, 5⟩,
    ⟨109, 9, 1, AttendanceStatus.ABSENT, 5⟩,
    ⟨110, 10, 1, AttendanceStatus.ABSENT, 5⟩], [], 111⟩

/-- The store of `dbOneAbsent` before any record is marked. -/
def dbPreMark : DB :=
  ⟨[⟨1, 10⟩], [⟨1, 20, some 1⟩, ⟨2, 21, some 1⟩], [⟨1, 1, 1⟩], [⟨1, 1, 1⟩],
   [], [], 100⟩

/-- The payload marking student 1 ABSENT and student 2 PRESENT in session 1. -/
def payloadW : MarkAttendanceDTO :=
  ⟨1, [⟨1, AttendanceStatus.ABSENT⟩, ⟨2, AttendanceStatus.PRESENT⟩]⟩

/-- The store `dbPreMark` after `payloadW` has been marked at time 5. -/
def dbPostMarkW : DB :=
  ⟨[⟨1, 10⟩], [⟨1, 20, some 1⟩, ⟨2, 21, some 1⟩], [⟨1, 1, 1⟩], [⟨1, 1, 1⟩],
   [⟨100, 1, 1, AttendanceStatus.ABSENT, 5⟩,
    ⟨101, 1, 2, AttendanceStatus.PRESENT, 5⟩], [], 102⟩

/-- The fan-out emitted by marking `payloadW` on `dbPreMark`. -/
def effsMarkW : List FanoutEffect :=
  [FanoutEffect.attendanceMarked 1 2,
   FanoutEffect.liveSessionStatus 1 1 2 2 1 1,
   FanoutEffect.attendanceUpdated 20 0 Standing.CRITICAL,
   FanoutEffect.lowAttendanceAlert 20 0 3 Standing.CRITICAL,
   FanoutEffect.attendanceUpdated 21 100 Standing.GOOD]

/-- The store `dbOneAbsent` after the record is corrected ABSENT → PRESENT. -/
def dbUpdW : DB :=
  ⟨[⟨1, 10⟩], [⟨1, 20, some 1⟩, ⟨2, 21, some 1⟩], [⟨1, 1, 1⟩], [⟨1, 1, 1⟩],
   [⟨100, 1, 1, AttendanceStatus.PRESENT, 5⟩],
   [⟨100, 1, 10, AttendanceStatus.ABSENT, AttendanceStatus.PRESENT,
     "No reason provided"⟩], 101⟩

/-- The fan-out emitted by that correction. -/
def effsUpdW : List FanoutEffect :=
  [FanoutEffect.attendanceEdited 20 100 AttendanceStatus.ABSENT
     AttendanceStatus.PRESENT 10 "No reason provided",
   FanoutEffect.attendanceUpdated 20 100 Standing.GOOD]

/-- The store `dbOneAbsent` after the no-op correction ABSENT → ABSENT. -/
def dbUpdNoop : DB :=
  ⟨[⟨1, 10⟩], [⟨1, 20, some 1⟩, ⟨2, 21, some 1⟩], [⟨1, 1, 1⟩], [⟨1, 1, 1⟩],
   [⟨100, 1, 1, AttendanceStatus.ABSENT, 5⟩],
   [⟨100, 1, 10, AttendanceStatus.ABSENT, AttendanceStatus.ABSENT,
     "No reason provided"⟩], 101⟩

/-- The fan-out emitted by the no-op correction. -/
def effsUpdNoop : List FanoutEffect :=
  [FanoutEffect.attendanceEdited 20 100 AttendanceStatus.ABSENT
     AttendanceStatus.ABSENT 10 "No reason provided",
   FanoutEffect.attendanceUpdated 20 0 Standing.CRITICAL,
   FanoutEffect.lowAttendanceAlert 20 0 3 Standing.CRITICAL]

/-- The payload marking only student 1, ABSENT. -/
def payloadC8 : MarkAttendanceDTO := ⟨1, [⟨1, AttendanceStatus.ABSENT⟩]⟩

/-- The fan-out emitted by marking `payloadC8` on `dbPreMark`: websocket
events only — no push notification and no email. -/
def effsC8 : List FanoutEffect :=
  [FanoutEffect.attendanceMarked 1 1,
   FanoutEffect.liveSessionStatus 1 1 2 1 0 1,
   FanoutEffect.attendanceUpdated 20 0 Standing.CRITICAL,
   FanoutEffect.lowAttendanceAlert 20 0 3 Standing.CRITICAL]

lemma countKey_cons (r : AttendanceRecord) (recs : List AttendanceRecord) (sid stu : Nat) :
    countKey (r :: recs) sid stu =
      (if r.sessionId = sid ∧ r.studentId = stu then 1 else 0) + countKey recs sid stu := by
  by_cases h1 : r.sessionId = sid <;> by_cases h2 : r.studentId = stu <;>
    (simp [countKey, List.filter_cons, h1, h2]; try omega)

lemma countKey_append (l1 l2 : List AttendanceRecord) (sid stu : Nat) :
    countKey (l1 ++ l2) sid stu = countKey l1 sid stu + countKey l2 sid stu := by
  simp [countKey, List.filter_append]

lemma countKey_map (f : AttendanceRecord → AttendanceRecord)
    (hf : ∀ r, (f r).sessionId = r.sessionId ∧ (f r).studentId = r.studentId)
    (recs : List AttendanceRecord) (sid stu : Nat) :
    countKey (recs.map f) sid stu = countKey recs sid stu := by
  induction recs with
  | nil => rfl
  | cons r rs ih => simp [countKey_cons, ih, (hf r).1, (hf r).2]

lemma countKey_pos_of_any (recs : List AttendanceRecord) (sid stu : Nat)
    (h : recs.any (fun r => r.sessionId == sid && r.studentId == stu) = true) :
    1 ≤ countKey recs sid stu := by
  simp only [List.any_eq_true, Bool.and_eq_true, beq_iff_eq] at h
  obtain ⟨r, hr, h1, h2⟩ := h
  have hm : r ∈ recs.filter (fun r => r.sessionId == sid && r.studentId == stu) :=
    List.mem_filter.mpr ⟨hr, by simp [h1, h2]⟩
  exact List.length_pos.mpr (List.ne_nil_of_mem hm)

lemma countKey_eq_zero_of_not_any (recs : List AttendanceRecord) (sid stu : Nat)
    (h : recs.any (fun r => r.sessionId == sid && r.studentId == stu) = false) :
    countKey recs sid stu = 0 := by
  simp only [List.any_eq_false, Bool.and_eq_true, beq_iff_eq, not_and] at h
  simp only [countKey, List.length_eq_zero]
  refine List.filter_eq_nil_iff.mpr ?_
  intro r hr
  simp only [Bool.and_eq_true, beq_iff_eq, not_and]
  exact h r hr

lemma countKey_singleton (x : AttendanceRecord) (sid stu : Nat) :
    countKey [x] sid stu = if x.sessionId = sid ∧ x.studentId = stu then 1 else 0 := by
  rw [countKey_cons]
  simp [countKey]

lemma upsertRecord_countKey (sid now : Nat) (recs : List AttendanceRecord)
    (nextId : Nat) (inp : MarkRecordInput) (sid' stu' : Nat) :
    countKey (upsertRecord sid now recs nextId inp).1 sid' stu' =
      if sid' = sid ∧ stu' = inp.studentId then max (countKey recs sid' stu') 1
      else countKey recs sid' stu' := by
  unfold upsertRecord
  split
  · rename_i hany
    rw [countKey_map _ (by intro r; split <;> simp)]
    split
    · rename_i hk
      obtain ⟨rfl, rfl⟩ := hk
      have := countKey_pos_of_any recs sid' inp.studentId hany
      omega
    · rfl
  · rename_i hany
    rw [countKey_append, countKey_singleton]
    by_cases hk : sid' = sid ∧ stu' = inp.studentId
    · obtain ⟨rfl, rfl⟩ := hk
      have h0 : countKey recs sid' inp.studentId = 0 :=
        countKey_eq_zero_of_not_any recs sid' inp.studentId (by simpa using hany)
      simp [h0]
    · rw [if_neg hk, if_neg (fun h => hk ⟨h.1.symm, h.2.symm⟩)]
      omega

lemma upsertAll_cons (sid now : Nat) (i : MarkRecordInput) (rest : List MarkRecordInput)
    (recs : List AttendanceRecord) (nextId : Nat) :
    upsertAll sid now (i :: rest) recs nextId =
      upsertAll sid now rest (upsertRecord sid now recs nextId i).1
        (upsertRecord sid now recs nextId i).2 := rfl

lemma upsertAll_countKey (sid now : Nat) (inputs : List MarkRecordInput) :
    ∀ (recs : List AttendanceRecord) (nextId sid' stu' : Nat),
    countKey (upsertAll sid now inputs recs nextId).1 sid' stu' =
      if sid' = sid ∧ inputs.any (fun i => i.studentId == stu') = true then
        max (countKey recs sid' stu') 1
      else countKey recs sid' stu' := by
  induction inputs with
  | nil => intro recs nextId sid' stu'; simp [upsertAll]
  | cons i rest ih =>
    intro recs nextId sid' stu'
    rw [upsertAll_cons, ih, upsertRecord_countKey]
    by_cases c1 : sid' = sid
    · by_cases c3 : stu' = i.studentId
      · have hco : ((i :: rest).any (fun j => j.studentId == stu')) = true := by
          simp [List.any_cons, c3]
        by_cases c2 : rest.any (fun j => j.studentId == stu') = true
        · rw [if_pos ⟨c1, c2⟩, if_pos ⟨c1, c3⟩, if_pos ⟨c1, hco⟩, Nat.max_assoc]
          simp
        · rw [if_neg (fun h => c2 h.2), if_pos ⟨c1, c3⟩, if_pos ⟨c1, hco⟩]
      · by_cases c2 : rest.any (fun j => j.studentId == stu') = true
        · have hco : ((i :: rest).any (fun j => j.studentId == stu')) = true := by
            simp [List.any_cons, c2]
          rw [if_pos ⟨c1, c2⟩, if_neg (fun h => c3 h.2), if_pos ⟨c1, hco⟩]
        · have hco : ¬((i :: rest).any (fun j => j.studentId == stu')) = true := by
            simp only [List.any_cons, Bool.or_eq_true, beq_iff_eq]
            push_neg
            exact ⟨fun h => c3 h.symm, by simpa using c2⟩
          rw [if_neg (fun h => c2 h.2), if_neg (fun h => c3 h.2),
            if_neg (fun h => hco h.2)]
    · rw [if_neg (fun h => c1 h.1), if_neg (fun h => c1 h.1), if_neg (fun h => c1 h.1)]

lemma filter_map_update (sid now : Nat) (i : MarkRecordInput)
    (P : AttendanceRecord → Bool)
    (hP : ∀ r : AttendanceRecord, r.sessionId = sid → r.studentId = i.studentId →
      P r = false) :
    ∀ recs : List AttendanceRecord,
    (recs.map (fun r =>
      if r.sessionId == sid && r.studentId == i.studentId then
        { r with status := i.status, markedAt := now }
      else r)).filter P = recs.filter P := by
  intro recs
  induction recs with
  | nil => rfl
  | cons r rs ih =>
    by_cases hb : (r.sessionId == sid && r.studentId == i.studentId) = true
    · have hk : r.sessionId = sid ∧ r.studentId = i.studentId := by
        simpa using hb
      have h1 : P ({ r with status := i.status, markedAt := now } :
          AttendanceRecord) = false := hP _ hk.1 hk.2
      have h2 : P r = false := hP r hk.1 hk.2
      rw [List.map_cons, if_pos hb, List.filter_cons, List.filter_cons, h1, h2]
      simp only [Bool.false_eq_true, if_false]
      exact ih
    · rw [List.map_cons, if_neg hb, List.filter_cons, List.filter_cons, ih]

lemma upsertRecord_filter_untouched (sid now : Nat) (recs : List AttendanceRecord)
    (nextId : Nat) (i : MarkRecordInput) (P : AttendanceRecord → Bool)
    (hP : ∀ r : AttendanceRecord, r.sessionId = sid → r.studentId = i.studentId →
      P r = false) :
    (upsertRecord sid now recs nextId i).1.filter P = recs.filter P := by
  unfold upsertRecord
  split
  · exact filter_map_update sid now i P hP recs
  · rw [List.filter_append]
    have h0 : P ({ id := nextId, sessionId := sid, studentId := i.studentId,
                   status := i.status, markedAt := now } : AttendanceRecord) = false :=
      hP _ rfl rfl
    simp [List.filter_cons, h0]

lemma upsertAll_filter_untouched (sid now : Nat) (inputs : List MarkRecordInput)
    (P : AttendanceRecord → Bool)
    (hP : ∀ i ∈ inputs, ∀ r : AttendanceRecord, r.sessionId = sid →
      r.studentId = i.studentId → P r = false) :
    ∀ (recs : List AttendanceRecord) (nextId : Nat),
    (upsertAll sid now inputs recs nextId).1.filter P = recs.filter P := by
  induction inputs with
  | nil => intro recs nextId; rfl
  | cons i rest ih =>
    intro recs nextId
    rw [upsertAll_cons, ih (fun j hj => hP j (List.mem_cons_of_mem i hj)),
      upsertRecord_filter_untouched sid now recs nextId i P
        (hP i (List.mem_cons_self i rest))]

lemma lastStatusFor_eq_none (inputs : List MarkRecordInput) (stu : Nat)
    (h : lastStatusFor inputs stu = none) : ∀ i ∈ inputs, i.studentId ≠ stu := by
  induction inputs with
  | nil => simp
  | cons i rest ih =>
    intro j hj
    rcases List.mem_cons.mp hj with rfl | hj2
    · cases hrest : lastStatusFor rest stu with
      | some st =>
        exfalso
        have hx : (some st : Option AttendanceStatus) = none := by
          unfold lastStatusFor at h
          rw [hrest] at h
          exact h
        simp at hx
      | none =>
        have hx : (if j.studentId = stu then some j.status else none) =
            (none : Option AttendanceStatus) := by
          unfold lastStatusFor at h
          rw [hrest] at h
          exact h
        intro hcon
        rw [if_pos hcon] at hx
        simp at hx
    · cases hrest : lastStatusFor rest stu with
      | some st =>
        exfalso
        have hx : (some st : Option AttendanceStatus) = none := by
          unfold lastStatusFor at h
          rw [hrest] at h
          exact h
        simp at hx
      | none => exact ih hrest j hj2

lemma upsertRecord_key_fields (sid now : Nat) (recs : List AttendanceRecord)
    (nextId : Nat) (i : MarkRecordInput) :
    ∀ r ∈ (upsertRecord sid now recs nextId i).1,
      r.sessionId = sid → r.studentId = i.studentId →
      r.status = i.status ∧ r.markedAt = now := by
  unfold upsertRecord
  split
  · intro r hr h1 h2
    obtain ⟨r0, hr0, hfr⟩ := List.mem_map.mp hr
    by_cases hk : (r0.sessionId == sid && r0.studentId == i.studentId) = true
    · rw [if_pos hk] at hfr
      subst hfr
      exact ⟨rfl, rfl⟩
    · rw [if_neg hk] at hfr
      subst hfr
      simp [h1, h2] at hk
  · rename_i hany
    intro r hr h1 h2
    rcases List.mem_append.mp hr with hm | hm
    · exfalso
      have hany2 : (recs.any fun r =>
          r.sessionId == sid && r.studentId == i.studentId) = false := by
        simpa using hany
      simp only [List.any_eq_false, Bool.and_eq_true, beq_iff_eq, not_and] at hany2
      exact hany2 r hm h1 h2
    · rcases List.mem_singleton.mp hm with rfl
      exact ⟨rfl, rfl⟩

lemma upsertAll_last_status (sid now : Nat) :
    ∀ (inputs : List MarkRecordInput) (recs : List AttendanceRecord)
      (nextId stu : Nat) (st : AttendanceStatus),
    lastStatusFor inputs stu = some st →
    ∀ r ∈ (upsertAll sid now inputs recs nextId).1,
      r.sessionId = sid → r.studentId = stu → r.status = st ∧ r.markedAt = now := by
  intro inputs
  induction inputs with
  | nil => intro recs nextId stu st h; simp [lastStatusFor] at h
  | cons i rest ih =>
    intro recs nextId stu st h r hr h1 h2
    rw [upsertAll_cons] at hr
    cases hrest : lastStatusFor rest stu with
    | some st2 =>
      have hst : st2 = st := by
        have hx : (some st2 : Option AttendanceStatus) = some st := by
          unfold lastStatusFor at h
          rw [hrest] at h
          exact h
        exact Option.some.inj hx
      subst hst
      exact ih _ _ stu st2 hrest r hr h1 h2
    | none =>
      have hkey : i.studentId = stu ∧ st = i.status := by
        have hx : (if i.studentId = stu then some i.status else none) =
            some st := by
          unfold lastStatusFor at h
          rw [hrest] at h
          exact h
        by_cases hc : i.studentId = stu
        · rw [if_pos hc] at hx
          exact ⟨hc, (Option.some.inj hx).symm⟩
        · rw [if_neg hc] at hx
          simp at hx
      have hnot := lastStatusFor_eq_none rest stu hrest
      have hfilter := upsertAll_filter_untouched sid now rest
        (fun r => r.sessionId == sid && r.studentId == stu)
        (by
          intro j hj r2 hs hstu
          have hne : (r2.studentId == stu) = false := by
            rw [beq_eq_false_iff_ne, hstu]
            exact hnot j hj
          simp [hne])
        (upsertRecord sid now recs nextId i).1 (upsertRecord sid now recs nextId i).2
      have hkeyr : (r.sessionId == sid && r.studentId == stu) = true := by
        simp [h1, h2]
      have hmem : r ∈ ((upsertRecord sid now recs nextId i).1.filter
          (fun r => r.sessionId == sid && r.studentId == stu)) := by
        rw [← hfilter]
        exact List.mem_filter.mpr ⟨hr, hkeyr⟩
      have hmem2 := (List.mem_filter.mp hmem).1
      have hres := upsertRecord_key_fields sid now recs nextId i r hmem2 h1
        (h2.trans hkey.1.symm)
      exact ⟨hres.1.trans hkey.2.symm, hres.2⟩

lemma markAttendanceCore_ok_elim (db : DB) (tuid : Nat) (data : MarkAttendanceDTO)
    (now : Nat) (db' : DB) (effs : List FanoutEffect) (c : Nat)
    (h : markAttendanceCore db tuid data now = Except.ok (db', effs, c)) :
    ∃ teacher session enrollment,
      db.teachers.find? (fun t => t.userId == tuid) = some teacher ∧
      db.sessions.find? (fun s => s.id == data.sessionId) = some session ∧
      db.enrollments.find? (fun e => e.id == session.subjectEnrollmentId) =
        some enrollment ∧
      session.teacherId = teacher.id ∧
      db' = markDbAfter db data now ∧
      c = data.records.length ∧
      effs = FanoutEffect.attendanceMarked enrollment.batchId data.records.length ::
        FanoutEffect.liveSessionStatus session.subjectEnrollmentId session.id
          (db.students.filter (fun s => s.batchId == some enrollment.batchId)).length
          data.records.length
          (data.records.filter (fun r =>
            r.status == AttendanceStatus.PRESENT ||
            r.status == AttendanceStatus.LATE)).length
          (data.records.filter (fun r =>
            r.status == AttendanceStatus.ABSENT)).length ::
        ((db.students.filter (fun s => s.batchId == some enrollment.batchId)).filter
          (fun s => data.records.any (fun r => r.studentId == s.id))).flatMap
          (fun s => studentFanout (markDbAfter db data now) s.id s.userId
            session.subjectEnrollmentId) := by
  unfold markAttendanceCore at h
  split at h
  · simp at h
  rename_i teacher hteacher
  split at h
  · simp at h
  rename_i session hsession
  split at h
  · simp at h
  rename_i enrollment henrollment
  split at h
  · simp at h
  rename_i hown
  dsimp only at h
  split at h
  · simp at h
  rename_i hvalid
  simp only [Except.ok.injEq, Prod.mk.injEq] at h
  exact ⟨teacher, session, enrollment, hteacher, hsession, henrollment,
    not_ne_iff.mp hown, h.1.symm, h.2.2.symm, h.2.1.symm⟩

lemma markAttendance_ok_elim (db : DB) (tuid : Nat) (data : MarkAttendanceDTO)
    (now : Nat) (wsFail : Option Nat) (db' : DB) (effs : List FanoutEffect) (c : Nat)
    (h : markAttendance db tuid data now wsFail = Except.ok (db', effs, c)) :
    ∃ effs0, markAttendanceCore db tuid data now = Except.ok (db', effs0, c) ∧
      effs = runFanout effs0 wsFail := by
  unfold markAttendance at h
  split at h
  · rename_i a b c0 heq
    simp only [Except.ok.injEq, Prod.mk.injEq] at h
    obtain ⟨h1, h2, h3⟩ := h
    subst h1; subst h3
    exact ⟨b, heq, h2.symm⟩
  · simp at h

lemma updateAttendanceRecordCore_ok_elim (db : DB) (rid tuid : Nat)
    (data : UpdateAttendanceDTO) (db' : DB) (effs : List FanoutEffect)
    (h : updateAttendanceRecordCore db rid tuid data false = Except.ok (db', effs)) :
    ∃ teacher record session student,
      db.teachers.find? (fun t => t.userId == tuid) = some teacher ∧
      db.records.find? (fun r => r.id == rid) = some record ∧
      db.sessions.find? (fun s => s.id == record.sessionId) = some session ∧
      db.students.find? (fun s => s.id == record.studentId) = some student ∧
      session.teacherId = teacher.id ∧
      db' = updateDbAfter db rid record tuid data ∧
      effs = FanoutEffect.attendanceEdited student.userId record.id record.status
        data.status tuid (reasonOrDefault data.reason) ::
        studentFanout (updateDbAfter db rid record tuid data) record.studentId
          student.userId session.subjectEnrollmentId := by
  unfold updateAttendanceRecordCore at h
  split at h
  · simp at h
  rename_i teacher hteacher
  split at h
  · simp at h
  rename_i record hrecord
  split at h
  · simp at h
  rename_i session hsession
  split at h
  · simp at h
  rename_i student hstudent
  split at h
  · simp at h
  rename_i hown
  simp only [Bool.false_eq_true, if_false] at h
  simp only [Except.ok.injEq, Prod.mk.injEq] at h
  exact ⟨teacher, record, session, student, hteacher, hrecord, hsession, hstudent,
    not_ne_iff.mp hown, h.1.symm, h.2.symm⟩

lemma updateAttendanceRecord_ok_elim (db : DB) (rid tuid : Nat)
    (data : UpdateAttendanceDTO) (wsFail : Option Nat) (db' : DB)
    (effs : List FanoutEffect)
    (h : updateAttendanceRecord db rid tuid data false wsFail =
      Except.ok (db', effs)) :
    ∃ effs0, updateAttendanceRecordCore db rid tuid data false =
      Except.ok (db', effs0) ∧ effs = runFanout effs0 wsFail := by
  unfold updateAttendanceRecord at h
  split at h
  · rename_i a b heq
    simp only [Except.ok.injEq, Prod.mk.injEq] at h
    obtain ⟨h1, h2⟩ := h
    subst h1
    exact ⟨b, heq, h2.symm⟩
  · simp at h

lemma updateAttendanceRecordCore_txFail (db : DB) (rid tuid : Nat)
    (data : UpdateAttendanceDTO) :
    ∃ e, updateAttendanceRecordCore db rid tuid data true = Except.error e := by
  unfold updateAttendanceRecordCore
  split
  · exact ⟨_, rfl⟩
  split
  · exact ⟨_, rfl⟩
  split
  · exact ⟨_, rfl⟩
  split
  · exact ⟨_, rfl⟩
  split
  · exact ⟨_, rfl⟩
  · rw [if_pos rfl]
    exact ⟨_, rfl⟩

lemma updateAttendanceRecord_txFail (db : DB) (rid tuid : Nat)
    (data : UpdateAttendanceDTO) (wsFail : Option Nat) :
    ∃ e, updateAttendanceRecord db rid tuid data true wsFail = Except.error e := by
  obtain ⟨e, he⟩ := updateAttendanceRecordCore_txFail db rid tuid data
  refine ⟨e, ?_⟩
  unfold updateAttendanceRecord
  rw [he]

lemma markAttendanceCore_invalid_student (db : DB) (tuid : Nat)
    (data : MarkAttendanceDTO) (now : Nat) (teacher : Teacher)
    (session : AttendanceSession) (enrollment : SubjectEnrollment)
    (ht : db.teachers.find? (fun t => t.userId == tuid) = some teacher)
    (hs : db.sessions.find? (fun s => s.id == data.sessionId) = some session)
    (he : db.enrollments.find? (fun e => e.id == session.subjectEnrollmentId) =
      some enrollment)
    (hown : session.teacherId = teacher.id)
    (hbad : ∃ inp ∈ data.records, ∀ s ∈ db.students,
      s.batchId = some enrollment.batchId → s.id ≠ inp.studentId) :
    markAttendanceCore db tuid data now =
      Except.error (ApiError.badRequest "Student is not in batch") := by
  unfold markAttendanceCore
  simp only [ht, hs, he]
  rw [if_neg (by simp [hown])]
  have hfind : data.records.find? (fun r =>
      !((db.students.filter (fun s => s.batchId == some enrollment.batchId)).any
        (fun s => s.id == r.studentId))) ≠ none := by
    obtain ⟨inp, hinp, hno⟩ := hbad
    intro hnone
    have hxx := List.find?_eq_none.mp hnone inp hinp
    simp only [Bool.not_eq_true', Bool.not_eq_false, List.any_eq_true,
      beq_iff_eq] at hxx
    obtain ⟨s, hsmem, hsid⟩ := hxx
    have hsm := List.mem_filter.mp hsmem
    exact hno s hsm.1 (by simpa using hsm.2) hsid
  cases hfind2 : data.records.find? (fun r =>
      !((db.students.filter (fun s => s.batchId == some enrollment.batchId)).any
        (fun s => s.id == r.studentId))) with
  | none => exact absurd hfind2 hfind
  | some bad => rfl

lemma classify_iff (q : ℚ) :
    ((if q < 65 then Standing.CRITICAL else if q < 75 then Standing.WARNING
      else Standing.GOOD) = Standing.CRITICAL ↔ q < 65) ∧
    ((if q < 65 then Standing.CRITICAL else if q < 75 then Standing.WARNING
      else Standing.GOOD) = Standing.WARNING ↔ 65 ≤ q ∧ q < 75) ∧
    ((if q < 65 then Standing.CRITICAL else if q < 75 then Standing.WARNING
      else Standing.GOOD) = Standing.GOOD ↔ 75 ≤ q) := by
  by_cases h1 : q < 65
  · simp only [if_pos h1]
    refine ⟨by simp [h1], ?_, ?_⟩ <;> constructor <;> intro h
    · exact absurd h (by decide)
    · exact absurd h1 (by linarith [h.1])
    · exact absurd h (by decide)
    · exact absurd h1 (by linarith)
  · by_cases h2 : q < 75
    · simp only [if_neg h1, if_pos h2]
      refine ⟨?_, by simp [h1, h2, le_of_not_lt h1], ?_⟩ <;> constructor <;> intro h
      · exact absurd h (by decide)
      · exact absurd h h1
      · exact absurd h (by decide)
      · exact absurd h2 (by linarith)
    · simp only [if_neg h1, if_neg h2]
      refine ⟨?_, ?_, by simp [le_of_not_lt h2]⟩ <;> constructor <;> intro h
      · exact absurd h (by decide)
      · exact absurd h h1
      · exact absurd h (by decide)
      · exact absurd h2 (by linarith [h.2])

/-- Every element of the shared per-student fan-out step is a websocket
event, never a push notification or an email. -/
lemma studentFanout_no_push (db : DB) (studentId userId enrollmentId : Nat) :
    ∀ e ∈ studentFanout db studentId userId enrollmentId,
      (∀ u st, e ≠ FanoutEffect.pushNotification u st) ∧
      (∀ u, e ≠ FanoutEffect.emailAlert u) := by
  intro e he
  simp only [studentFanout] at he
  rcases List.mem_cons.mp he with rfl | he2
  · exact ⟨fun u st => by simp, fun u => by simp⟩
  · split at he2
    · rcases List.mem_singleton.mp he2 with rfl
      exact ⟨fun u st => by simp, fun u => by simp⟩
    · simp at he2

/-- When the recomputed standing is WARNING or CRITICAL, the per-student
fan-out contains a low-attendance alert for that student. -/
lemma studentFanout_alert_mem (db : DB) (studentId userId enrollmentId : Nat)
    (h : (getStudentAttendanceStats db studentId enrollmentId).status =
        Standing.WARNING ∨
      (getStudentAttendanceStats db studentId enrollmentId).status =
        Standing.CRITICAL) :
    ∃ n, FanoutEffect.lowAttendanceAlert userId
      (getStudentAttendanceStats db studentId enrollmentId).percentage n
      (getStudentAttendanceStats db studentId enrollmentId).status ∈
      studentFanout db studentId userId enrollmentId := by
  simp only [studentFanout]
  rw [if_pos h]
  exact ⟨_, List.mem_cons_of_mem _ (List.mem_singleton.mpr rfl)⟩

/-- C1: `getStudentAttendanceStats` returns, besides the session count, the
percentage `(present + late + excused) / totalSessions * 100` rounded to two
decimal places, and `0` when the enrollment has no sessions. -/
theorem C1_stats_percentage (db : DB) (studentId enrollmentId : Nat) :
    (getStudentAttendanceStats db studentId enrollmentId).percentage =
      (if (enrollmentSessions db enrollmentId).length = 0 then 0
       else round2
         (((countStatus (studentEnrollmentRecords db studentId enrollmentId)
              AttendanceStatus.PRESENT +
            countStatus (studentEnrollmentRecords db studentId enrollmentId)
              AttendanceStatus.LATE +
            countStatus (studentEnrollmentRecords db studentId enrollmentId)
              AttendanceStatus.EXCUSED : ℕ) : ℚ) /
          ((enrollmentSessions db enrollmentId).length : ℚ) * 100)) ∧
    (getStudentAttendanceStats db studentId enrollmentId).totalSessions =
      (enrollmentSessions db enrollmentId).length ∧
    (getStudentAttendanceStats db studentId enrollmentId).present =
      (if (enrollmentSessions db enrollmentId).length = 0 then 0
       else countStatus (studentEnrollmentRecords db studentId enrollmentId)
         AttendanceStatus.PRESENT) ∧
    (getStudentAttendanceStats db studentId enrollmentId).late =
      (if (enrollmentSessions db enrollmentId).length = 0 then 0
       else countStatus (studentEnrollmentRecords db studentId enrollmentId)
         AttendanceStatus.LATE) ∧
    (getStudentAttendanceStats db studentId enrollmentId).excused =
      (if (enrollmentSessions db enrollmentId).length = 0 then 0
       else countStatus (studentEnrollmentRecords db studentId enrollmentId)
         AttendanceStatus.EXCUSED) := by
  simp only [getStudentAttendanceStats]
  split
  · simp_all
  · simp_all

/-- C2 counterexample: with zero sessions the statistics result has
percentage 0 — which is `< 65` — yet its standing is GOOD, not CRITICAL, so
the claimed band classification does not extend to the
`totalSessions == 0` result. -/
theorem C2_counterexample :
    (getStudentAttendanceStats dbNoSessions 1 1).totalSessions = 0 ∧
    (getStudentAttendanceStats dbNoSessions 1 1).percentage = 0 ∧
    (getStudentAttendanceStats dbNoSessions 1 1).percentage < 65 ∧
    (getStudentAttendanceStats dbNoSessions 1 1).status = Standing.GOOD ∧
    (getStudentAttendanceStats dbNoSessions 1 1).status ≠ Standing.CRITICAL := by
  simp +decide [getStudentAttendanceStats, enrollmentSessions, dbNoSessions]

/-- C2 (amended): when `totalSessions > 0` the standing bands hold with the
stated inclusive boundaries, but they classify the unrounded ratio
`(present + late + excused) / totalSessions * 100`; when
`totalSessions == 0` the result is percentage 0 with standing GOOD. -/
theorem C2_amended_bands (db : DB) (studentId enrollmentId : Nat) :
    ((getStudentAttendanceStats db studentId enrollmentId).totalSessions = 0 →
      (getStudentAttendanceStats db studentId enrollmentId).status =
        Standing.GOOD ∧
      (getStudentAttendanceStats db studentId enrollmentId).percentage = 0) ∧
    (0 < (getStudentAttendanceStats db studentId enrollmentId).totalSessions →
      (((getStudentAttendanceStats db studentId enrollmentId).status =
          Standing.CRITICAL ↔
        (((getStudentAttendanceStats db studentId enrollmentId).present +
          (getStudentAttendanceStats db studentId enrollmentId).late +
          (getStudentAttendanceStats db studentId enrollmentId).excused : ℕ) : ℚ) /
         ((getStudentAttendanceStats db studentId enrollmentId).totalSessions : ℚ) *
          100 < 65) ∧
       ((getStudentAttendanceStats db studentId enrollmentId).status =
          Standing.WARNING ↔
        65 ≤ (((getStudentAttendanceStats db studentId enrollmentId).present +
          (getStudentAttendanceStats db studentId enrollmentId).late +
          (getStudentAttendanceStats db studentId enrollmentId).excused : ℕ) : ℚ) /
         ((getStudentAttendanceStats db studentId enrollmentId).totalSessions : ℚ) *
          100 ∧
        (((getStudentAttendanceStats db studentId enrollmentId).present +
          (getStudentAttendanceStats db studentId enrollmentId).late +
          (getStudentAttendanceStats db studentId enrollmentId).excused : ℕ) : ℚ) /
         ((getStudentAttendanceStats db studentId enrollmentId).totalSessions : ℚ) *
          100 < 75) ∧
       ((getStudentAttendanceStats db studentId enrollmentId).status =
          Standing.GOOD ↔
        75 ≤ (((getStudentAttendanceStats db studentId enrollmentId).present +
          (getStudentAttendanceStats db studentId enrollmentId).late +
          (getStudentAttendanceStats db studentId enrollmentId).excused : ℕ) : ℚ) /
         ((getStudentAttendanceStats db studentId enrollmentId).totalSessions : ℚ) *
          100))) := by
  simp only [getStudentAttendanceStats]
  split
  · simp_all
  · refine ⟨fun h => by simp_all, fun hT => ?_⟩
    exact ⟨(classify_iff _).1, (classify_iff _).2.1, (classify_iff _).2.2⟩

theorem C2_amended_bands_witness :
    0 < (getStudentAttendanceStats dbOneAbsent 1 1).totalSessions ∧
    (getStudentAttendanceStats dbOneAbsent 1 1).status = Standing.CRITICAL := by
  have hT : 0 < (getStudentAttendanceStats dbOneAbsent 1 1).totalSessions := by
    simp +decide [getStudentAttendanceStats, enrollmentSessions, dbOneAbsent]
  refine ⟨hT, ?_⟩
  refine ((C2_amended_bands dbOneAbsent 1 1).2 hT).1.mpr ?_
  simp +decide [getStudentAttendanceStats, enrollmentSessions,
    studentEnrollmentRecords, countStatus, dbOneAbsent]

/-- C5: whenever the recomputed standing is WARNING or CRITICAL, the
low-attendance alert published by the per-student fan-out carries
`sessionsNeeded = max(ceil((0.75 * totalSessions - attendedCount) / 0.25), 1)`
with `attendedCount = present + late + excused`, and every alert it
publishes carries exactly that value. -/
theorem C5_sessions_needed (db : DB) (studentId userId enrollmentId : Nat)
    (h : (getStudentAttendanceStats db studentId enrollmentId).status =
        Standing.WARNING ∨
      (getStudentAttendanceStats db studentId enrollmentId).status =
        Standing.CRITICAL) :
    FanoutEffect.lowAttendanceAlert userId
      (getStudentAttendanceStats db studentId enrollmentId).percentage
      (max ⌈((0.75 : ℚ) *
          ((getStudentAttendanceStats db studentId enrollmentId).totalSessions : ℚ) -
          (((getStudentAttendanceStats db studentId enrollmentId).present +
            (getStudentAttendanceStats db studentId enrollmentId).late +
            (getStudentAttendanceStats db studentId enrollmentId).excused : ℕ) : ℚ)) /
          (0.25 : ℚ)⌉ 1)
      (getStudentAttendanceStats db studentId enrollmentId).status ∈
      studentFanout db studentId userId enrollmentId ∧
    (∀ u p n st, FanoutEffect.lowAttendanceAlert u p n st ∈
        studentFanout db studentId userId enrollmentId →
      n = max ⌈((0.75 : ℚ) *
          ((getStudentAttendanceStats db studentId enrollmentId).totalSessions : ℚ) -
          (((getStudentAttendanceStats db studentId enrollmentId).present +
            (getStudentAttendanceStats db studentId enrollmentId).late +
            (getStudentAttendanceStats db studentId enrollmentId).excused : ℕ) : ℚ)) /
          (0.25 : ℚ)⌉ 1) := by
  have hq : (1 : ℚ) - 0.75 = 0.25 := by norm_num
  constructor
  · simp only [studentFanout]
    rw [if_pos h, hq]
    exact List.mem_cons_of_mem _ (List.mem_singleton.mpr rfl)
  · intro u p n st hmem
    simp only [studentFanout] at hmem
    rw [if_pos h] at hmem
    rcases List.mem_cons.mp hmem with heq | hmem2
    · exact absurd heq (by simp)
    · have heq := List.mem_singleton.mp hmem2
      injection heq with h1 h2 h3 h4
      rw [hq] at h3
      exact h3

lemma statsTen : getStudentAttendanceStats dbTen 1 1 =
    { totalSessions := 10, present := 6, absent := 4, late := 0, excused := 0
      percentage := 60, status := Standing.CRITICAL } := by
  simp +decide [getStudentAttendanceStats, enrollmentSessions,
    studentEnrollmentRecords, countStatus, round2, dbTen]
  norm_num [round_eq]

theorem C5_sessions_needed_witness :
    FanoutEffect.lowAttendanceAlert 20 60 6 Standing.CRITICAL ∈
      studentFanout dbTen 1 20 1 := by
  have h : (getStudentAttendanceStats dbTen 1 1).status = Standing.WARNING ∨
      (getStudentAttendanceStats dbTen 1 1).status = Standing.CRITICAL :=
    Or.inr (by rw [statsTen])
  have hm := (C5_sessions_needed dbTen 1 20 1 h).1
  rw [statsTen] at hm
  norm_num at hm
  convert hm using 2

/-- C7: for a session owned by the caller, `deleteSession` aborts with
`BadRequest` and leaves the session in place whenever at least one record
exists for it (re-counted inside the transaction), and deletes the session
when the count is zero. -/
theorem C7_delete_session_guard (db : DB) (sid tuid : Nat) (teacher : Teacher)
    (session : AttendanceSession)
    (ht : db.teachers.find? (fun t => t.userId == tuid) = some teacher)
    (hs : db.sessions.find? (fun s => s.id == sid) = some session)
    (hown : session.teacherId = teacher.id) :
    (1 ≤ (db.records.filter (fun r => r.sessionId == sid)).length →
      deleteSession db sid tuid =
        Except.error (ApiError.badRequest
          "Cannot delete session with marked attendance. Edit records instead.") ∧
      applyDelete db sid tuid = db ∧
      session ∈ (applyDelete db sid tuid).sessions) ∧
    ((db.records.filter (fun r => r.sessionId == sid)).length = 0 →
      deleteSession db sid tuid =
        Except.ok { db with
          sessions := db.sessions.filter (fun s => !(s.id == sid)) } ∧
      ∀ s ∈ (applyDelete db sid tuid).sessions, s.id ≠ sid) := by
  have hds : deleteSession db sid tuid =
      (if 0 < (db.records.filter (fun r => r.sessionId == sid)).length then
        Except.error (ApiError.badRequest
          "Cannot delete session with marked attendance. Edit records instead.")
      else Except.ok { db with
        sessions := db.sessions.filter (fun s => !(s.id == sid)) }) := by
    unfold deleteSession
    simp only [ht, hs]
    rw [if_neg (by simp [hown])]
  constructor
  · intro hcnt
    have hpos : 0 < (db.records.filter (fun r => r.sessionId == sid)).length := hcnt
    have herr := hds.trans (if_pos hpos)
    refine ⟨herr, ?_, ?_⟩
    · unfold applyDelete
      rw [herr]
    · unfold applyDelete
      rw [herr]
      exact List.mem_of_find?_eq_some hs
  · intro hcnt
    have hneg : ¬ 0 < (db.records.filter (fun r => r.sessionId == sid)).length := by
      omega
    have hok := hds.trans (if_neg hneg)
    refine ⟨hok, ?_⟩
    intro s hsmem
    unfold applyDelete at hsmem
    rw [hok] at hsmem
    have hfm := (List.mem_filter.mp hsmem).2
    simpa using hfm

theorem C7_delete_session_guard_witness :
    deleteSession dbOneAbsent 1 10 =
      Except.error (ApiError.badRequest
        "Cannot delete session with marked attendance. Edit records instead.") ∧
    deleteSession dbPreMark 1 10 =
      Except.ok ⟨[⟨1, 10⟩], [⟨1, 20, some 1⟩, ⟨2, 21, some 1⟩], [⟨1, 1, 1⟩],
        [], [], [], 100⟩ := by
  constructor
  · exact ((C7_delete_session_guard dbOneAbsent 1 10 ⟨1, 10⟩ ⟨1, 1, 1⟩
      rfl rfl rfl).1 (by decide)).1
  · have h2 := ((C7_delete_session_guard dbPreMark 1 10 ⟨1, 10⟩ ⟨1, 1, 1⟩
      rfl rfl rfl).2 (by decide)).1
    exact h2.trans rfl

/-- C6: a successful `updateAttendanceRecord` appends exactly one
AttendanceEdit row capturing old status, new status, editor, and the
(defaulted) reason, and sets the record's status to the new status; under a
simulated mid-transaction failure the call errors and the store is
untouched, so the two effects are never observed separately. -/
theorem C6_update_audit_atomic (db : DB) (rid tuid : Nat)
    (data : UpdateAttendanceDTO) (wsFail : Option Nat) :
    (∀ db' effs, updateAttendanceRecord db rid tuid data false wsFail =
        Except.ok (db', effs) →
      ∃ record, db.records.find? (fun r => r.id == rid) = some record ∧
        db'.edits = db.edits ++
          [{ recordId := record.id, sessionId := record.sessionId
             editedBy := tuid, oldStatus := record.status
             newStatus := data.status
             reason := reasonOrDefault data.reason }] ∧
        db'.edits.length = db.edits.length + 1 ∧
        (∀ r ∈ db'.records, r.id = rid → r.status = data.status) ∧
        (∃ r ∈ db'.records, r.id = rid ∧ r.status = data.status)) ∧
    ((∃ e, updateAttendanceRecord db rid tuid data true wsFail =
        Except.error e) ∧
      applyUpdate db rid tuid data true wsFail = db) := by
  constructor
  · intro db' effs h
    obtain ⟨effs0, hcore, -⟩ :=
      updateAttendanceRecord_ok_elim db rid tuid data wsFail db' effs h
    obtain ⟨teacher, record, session, student, -, hrec, -, -, -, hdb', -⟩ :=
      updateAttendanceRecordCore_ok_elim db rid tuid data db' effs0 hcore
    have hrid : record.id = rid := by
      have := List.find?_some hrec
      simpa using this
    refine ⟨record, hrec, ?_, ?_, ?_, ?_⟩
    · rw [hdb']
      rfl
    · rw [hdb']
      simp [updateDbAfter]
    · intro r hrmem hr
      rw [hdb'] at hrmem
      simp only [updateDbAfter] at hrmem
      obtain ⟨r0, hr0, hfr⟩ := List.mem_map.mp hrmem
      by_cases hk : (r0.id == rid) = true
      · rw [if_pos hk] at hfr
        subst hfr
        rfl
      · rw [if_neg hk] at hfr
        subst hfr
        exact absurd hr (by simpa using hk)
    · refine ⟨{ record with status := data.status }, ?_, hrid, rfl⟩
      rw [hdb']
      simp only [updateDbAfter]
      refine List.mem_map.mpr ⟨record, List.mem_of_find?_eq_some hrec, ?_⟩
      rw [if_pos (by simpa using hrid)]
  · obtain ⟨e, he⟩ := updateAttendanceRecord_txFail db rid tuid data wsFail
    refine ⟨⟨e, he⟩, ?_⟩
    unfold applyUpdate
    rw [he]

/-- C10: `updateAttendanceRecord` appends an audit row even when the
submitted status equals the record's current status — the no-op correction
still produces an AttendanceEdit with identical old and new status. -/
theorem C10_noop_edit_logged (db : DB) (rid tuid : Nat) (reason : Option String)
    (wsFail : Option Nat) (record : AttendanceRecord)
    (hfind : db.records.find? (fun r => r.id == rid) = some record)
    (db' : DB) (effs : List FanoutEffect)
    (h : updateAttendanceRecord db rid tuid ⟨record.status, reason⟩ false wsFail =
      Except.ok (db', effs)) :
    db'.edits = db.edits ++
      [{ recordId := record.id, sessionId := record.sessionId
         editedBy := tuid, oldStatus := record.status
         newStatus := record.status
         reason := reasonOrDefault reason }] ∧
    db'.edits.length = db.edits.length + 1 := by
  obtain ⟨effs0, hcore, -⟩ :=
    updateAttendanceRecord_ok_elim db rid tuid ⟨record.status, reason⟩ wsFail
      db' effs h
  obtain ⟨teacher, record2, session, student, -, hrec2, -, -, -, hdb', -⟩ :=
    updateAttendanceRecordCore_ok_elim db rid tuid ⟨record.status, reason⟩
      db' effs0 hcore
  have hr2 : record2 = record := by
    rw [hfind] at hrec2
    exact (Option.some.inj hrec2).symm
  subst hr2
  constructor
  · rw [hdb']
    rfl
  · rw [hdb']
    simp [updateDbAfter]

lemma markRun1 : markAttendance dbPreMark 10 payloadW 5 none =
    Except.ok (dbPostMarkW, effsMarkW, 2) := by
  simp +decide [markAttendance, markAttendanceCore, markDbAfter, upsertAll,
    upsertRecord, runFanout, studentFanout, getStudentAttendanceStats,
    enrollmentSessions, studentEnrollmentRecords, countStatus, round2,
    dbPreMark, payloadW, dbPostMarkW, effsMarkW]
  norm_num [round_eq]

lemma markRun2 : markAttendance dbPostMarkW 10 payloadW 5 none =
    Except.ok (dbPostMarkW, effsMarkW, 2) := by
  simp +decide [markAttendance, markAttendanceCore, markDbAfter, upsertAll,
    upsertRecord, runFanout, studentFanout, getStudentAttendanceStats,
    enrollmentSessions, studentEnrollmentRecords, countStatus, round2,
    dbPreMark, payloadW, dbPostMarkW, effsMarkW]
  norm_num [round_eq]

lemma updRun1 : updateAttendanceRecord dbOneAbsent 100 10
    ⟨AttendanceStatus.PRESENT, none⟩ false none =
    Except.ok (dbUpdW, effsUpdW) := by
  simp +decide [updateAttendanceRecord, updateAttendanceRecordCore,
    updateDbAfter, reasonOrDefault, runFanout, studentFanout,
    getStudentAttendanceStats, enrollmentSessions, studentEnrollmentRecords,
    countStatus, round2, dbOneAbsent, dbUpdW, effsUpdW]
  norm_num [round_eq]

lemma updRunNoop : updateAttendanceRecord dbOneAbsent 100 10
    ⟨AttendanceStatus.ABSENT, none⟩ false none =
    Except.ok (dbUpdNoop, effsUpdNoop) := by
  simp +decide [updateAttendanceRecord, updateAttendanceRecordCore,
    updateDbAfter, reasonOrDefault, runFanout, studentFanout,
    getStudentAttendanceStats, enrollmentSessions, studentEnrollmentRecords,
    countStatus, round2, dbOneAbsent, dbUpdNoop, effsUpdNoop]
  norm_num [round_eq]

theorem C6_update_audit_atomic_witness :
    dbUpdW.edits = [⟨100, 1, 10, AttendanceStatus.ABSENT,
      AttendanceStatus.PRESENT, "No reason provided"⟩] ∧
    (∃ e, updateAttendanceRecord dbOneAbsent 100 10
      ⟨AttendanceStatus.PRESENT, none⟩ true none = Except.error e) := by
  have h := C6_update_audit_atomic dbOneAbsent 100 10
    ⟨AttendanceStatus.PRESENT, none⟩ none
  obtain ⟨record, hrec, hedits, -⟩ := h.1 dbUpdW effsUpdW updRun1
  have hr : record = ⟨100, 1, 1, AttendanceStatus.ABSENT, 5⟩ := by
    have : dbOneAbsent.records.find? (fun r => r.id == 100) =
        some ⟨100, 1, 1, AttendanceStatus.ABSENT, 5⟩ := rfl
    rw [this] at hrec
    exact (Option.some.inj hrec).symm
  subst hr
  exact ⟨hedits.trans rfl, h.2.1⟩

theorem C10_noop_edit_logged_witness :
    dbUpdNoop.edits = [⟨100, 1, 10, AttendanceStatus.ABSENT,
      AttendanceStatus.ABSENT, "No reason provided"⟩] ∧
    dbUpdNoop.edits.length = dbOneAbsent.edits.length + 1 := by
  have h := C10_noop_edit_logged dbOneAbsent 100 10 none none
    ⟨100, 1, 1, AttendanceStatus.ABSENT, 5⟩ rfl dbUpdNoop effsUpdNoop updRunNoop
  exact ⟨h.1.trans rfl, h.2⟩

/-- C9: a failure anywhere in the post-commit websocket fan-out is swallowed
and logged; the committed store state, the returned payload and the
success/failure of the call itself are exactly those of the failure-free
run, for both `markAttendance` and `updateAttendanceRecord`. -/
theorem C9_fanout_failure_swallowed (db : DB) (tuid : Nat)
    (data : MarkAttendanceDTO) (now rid : Nat) (udata : UpdateAttendanceDTO)
    (k : Nat) :
    (∀ db' effs c, markAttendance db tuid data now none =
        Except.ok (db', effs, c) →
      markAttendance db tuid data now (some k) =
        Except.ok (db', effs.take k ++
          [FanoutEffect.logError "WebSocket emission failed"], c)) ∧
    (∀ e, markAttendance db tuid data now none = Except.error e →
      markAttendance db tuid data now (some k) = Except.error e) ∧
    (∀ db' effs, updateAttendanceRecord db rid tuid udata false none =
        Except.ok (db', effs) →
      updateAttendanceRecord db rid tuid udata false (some k) =
        Except.ok (db', effs.take k ++
          [FanoutEffect.logError "WebSocket emission failed"])) ∧
    (∀ e, updateAttendanceRecord db rid tuid udata false none =
        Except.error e →
      updateAttendanceRecord db rid tuid udata false (some k) =
        Except.error e) := by
  refine ⟨?_, ?_, ?_, ?_⟩
  · intro db' effs c h
    obtain ⟨effs0, hcore, heffs⟩ :=
      markAttendance_ok_elim db tuid data now none db' effs c h
    have h0 : effs = effs0 := heffs
    subst h0
    unfold markAttendance
    rw [hcore]
    rfl
  · intro e h
    unfold markAttendance at h ⊢
    cases hc : markAttendanceCore db tuid data now with
    | ok x =>
      rw [hc] at h
      obtain ⟨a, b, c0⟩ := x
      simp at h
    | error e2 =>
      rw [hc] at h
      exact h
  · intro db' effs h
    obtain ⟨effs0, hcore, heffs⟩ :=
      updateAttendanceRecord_ok_elim db rid tuid udata none db' effs h
    have h0 : effs = effs0 := heffs
    subst h0
    unfold updateAttendanceRecord
    rw [hcore]
    rfl
  · intro e h
    unfold updateAttendanceRecord at h ⊢
    cases hc : updateAttendanceRecordCore db rid tuid udata false with
    | ok x =>
      rw [hc] at h
      obtain ⟨a, b⟩ := x
      simp at h
    | error e2 =>
      rw [hc] at h
      exact h

theorem C9_fanout_failure_swallowed_witness :
    markAttendance dbPreMark 10 payloadW 5 (some 1) =
      Except.ok (dbPostMarkW, [FanoutEffect.attendanceMarked 1 2,
        FanoutEffect.logError "WebSocket emission failed"], 2) := by
  have h := (C9_fanout_failure_swallowed dbPreMark 10 payloadW 5 0
    ⟨AttendanceStatus.PRESENT, none⟩ 1).1 dbPostMarkW effsMarkW 2 markRun1
  exact h.trans rfl

/-- C4: when any submitted studentId is not among the batch students of the
session's enrollment, `markAttendance` fails with `BadRequest` and the
store is exactly as before the call. -/
theorem C4_mark_atomic_validation (db : DB) (tuid : Nat)
    (data : MarkAttendanceDTO) (now : Nat) (wsFail : Option Nat)
    (teacher : Teacher) (session : AttendanceSession)
    (enrollment : SubjectEnrollment)
    (ht : db.teachers.find? (fun t => t.userId == tuid) = some teacher)
    (hs : db.sessions.find? (fun s => s.id == data.sessionId) = some session)
    (he : db.enrollments.find? (fun e => e.id == session.subjectEnrollmentId) =
      some enrollment)
    (hown : session.teacherId = teacher.id)
    (hbad : ∃ inp ∈ data.records, ∀ s ∈ db.students,
      s.batchId = some enrollment.batchId → s.id ≠ inp.studentId) :
    markAttendance db tuid data now wsFail =
      Except.error (ApiError.badRequest "Student is not in batch") ∧
    applyMark db tuid data now wsFail = db := by
  have hcore := markAttendanceCore_invalid_student db tuid data now teacher
    session enrollment ht hs he hown hbad
  have herr : markAttendance db tuid data now wsFail =
      Except.error (ApiError.badRequest "Student is not in batch") := by
    unfold markAttendance
    rw [hcore]
  refine ⟨herr, ?_⟩
  unfold applyMark
  rw [herr]

theorem C4_mark_atomic_validation_witness :
    markAttendance dbPreMark 10 ⟨1, [⟨3, AttendanceStatus.PRESENT⟩]⟩ 5 none =
      Except.error (ApiError.badRequest "Student is not in batch") ∧
    applyMark dbPreMark 10 ⟨1, [⟨3, AttendanceStatus.PRESENT⟩]⟩ 5 none =
      dbPreMark :=
  C4_mark_atomic_validation dbPreMark 10 ⟨1, [⟨3, AttendanceStatus.PRESENT⟩]⟩
    5 none ⟨1, 10⟩ ⟨1, 1, 1⟩ ⟨1, 1, 1⟩ rfl rfl rfl rfl
    ⟨⟨3, AttendanceStatus.PRESENT⟩, by decide, by decide⟩

/-- C3: marking the identical payload twice leaves exactly one record per
(sessionId, studentId) pair of the payload, carrying the final occurrence's
status; the unique-key invariant is preserved, and rows outside the payload
are exactly those of the original store. -/
theorem C3_mark_idempotent (db : DB) (tuid : Nat) (data : MarkAttendanceDTO)
    (now now2 : Nat) (wf wf2 : Option Nat) (db1 db2 : DB)
    (effs1 effs2 : List FanoutEffect) (c1 c2 : Nat)
    (huniq : ∀ sid stu, countKey db.records sid stu ≤ 1)
    (h1 : markAttendance db tuid data now wf = Except.ok (db1, effs1, c1))
    (h2 : markAttendance db1 tuid data now2 wf2 = Except.ok (db2, effs2, c2)) :
    (∀ inp ∈ data.records,
      countKey db2.records data.sessionId inp.studentId = 1) ∧
    (∀ sid stu, countKey db2.records sid stu ≤ 1) ∧
    (∀ stu st, lastStatusFor data.records stu = some st →
      ∀ r ∈ db2.records, r.sessionId = data.sessionId → r.studentId = stu →
        r.status = st ∧ r.markedAt = now2) ∧
    (db2.records.filter (fun r => !(r.sessionId == data.sessionId &&
        data.records.any (fun i => i.studentId == r.studentId))) =
      db.records.filter (fun r => !(r.sessionId == data.sessionId &&
        data.records.any (fun i => i.studentId == r.studentId)))) := by
  obtain ⟨e1, hc1, -⟩ := markAttendance_ok_elim db tuid data now wf db1 effs1 c1 h1
  obtain ⟨t1, s1, en1, -, -, -, -, hdb1, -, -⟩ :=
    markAttendanceCore_ok_elim db tuid data now db1 e1 c1 hc1
  obtain ⟨e2, hc2, -⟩ :=
    markAttendance_ok_elim db1 tuid data now2 wf2 db2 effs2 c2 h2
  obtain ⟨t2, s2, en2, -, -, -, -, hdb2, -, -⟩ :=
    markAttendanceCore_ok_elim db1 tuid data now2 db2 e2 c2 hc2
  have hrec1 : db1.records =
      (upsertAll data.sessionId now data.records db.records db.nextRecordId).1 := by
    rw [hdb1]
    rfl
  have hrec2 : db2.records =
      (upsertAll data.sessionId now2 data.records db1.records db1.nextRecordId).1 := by
    rw [hdb2]
    rfl
  have hdb1c : ∀ sid stu, countKey db1.records sid stu ≤ 1 := by
    intro sid stu
    rw [hrec1, upsertAll_countKey]
    split
    · exact Nat.max_le.mpr ⟨huniq _ _, le_refl 1⟩
    · exact huniq _ _
  refine ⟨?_, ?_, ?_, ?_⟩
  · intro inp hinp
    have hany : (data.records.any (fun i => i.studentId == inp.studentId)) = true :=
      List.any_eq_true.mpr ⟨inp, hinp, by simp⟩
    rw [hrec2, upsertAll_countKey, if_pos ⟨rfl, hany⟩]
    exact Nat.max_eq_right (hdb1c _ _)
  · intro sid stu
    rw [hrec2, upsertAll_countKey]
    split
    · exact Nat.max_le.mpr ⟨hdb1c _ _, le_refl 1⟩
    · exact hdb1c _ _
  · intro stu st hlast r hr hsid hstu
    rw [hrec2] at hr
    exact upsertAll_last_status data.sessionId now2 data.records db1.records
      db1.nextRecordId stu st hlast r hr hsid hstu
  · have hP : ∀ i ∈ data.records, ∀ r : AttendanceRecord,
        r.sessionId = data.sessionId → r.studentId = i.studentId →
        (fun r => !(r.sessionId == data.sessionId &&
          data.records.any (fun j => j.studentId == r.studentId))) r = false := by
      intro i hi r hs1 hs2
      have hx : (r.sessionId == data.sessionId &&
          data.records.any (fun j => j.studentId == r.studentId)) = true := by
        simp only [Bool.and_eq_true, beq_iff_eq]
        exact ⟨hs1, List.any_eq_true.mpr ⟨i, hi, by simp [hs2]⟩⟩
      simp [hx]
    rw [hrec2, upsertAll_filter_untouched data.sessionId now2 data.records _ hP,
      hrec1, upsertAll_filter_untouched data.sessionId now data.records _ hP]

theorem C3_mark_idempotent_witness :
    countKey dbPostMarkW.records 1 1 = 1 ∧
    countKey dbPostMarkW.records 1 2 = 1 := by
  have h := C3_mark_idempotent dbPreMark 10 payloadW 5 5 none none
    dbPostMarkW dbPostMarkW effsMarkW effsMarkW 2 2
    (by intro sid stu; simp [countKey, dbPreMark]) markRun1 markRun2
  exact ⟨h.1 ⟨1, AttendanceStatus.ABSENT⟩ (by decide),
    h.1 ⟨2, AttendanceStatus.PRESENT⟩ (by decide)⟩

lemma markRunC8 : markAttendance dbPreMark 10 payloadC8 5 none =
    Except.ok (dbOneAbsent, effsC8, 1) := by
  simp +decide [markAttendance, markAttendanceCore, markDbAfter, upsertAll,
    upsertRecord, runFanout, studentFanout, getStudentAttendanceStats,
    enrollmentSessions, studentEnrollmentRecords, countStatus, round2,
    dbPreMark, dbOneAbsent, payloadC8, effsC8]
  norm_num [round_eq]

/-- C8 counterexample: marking student 1 ABSENT leaves them CRITICAL and the
emitted fan-out carries the websocket low-attendance alert, but no push
notification and no email alert — `NotificationService.sendLowAttendanceAlert`
is never invoked from the mark path. -/
theorem C8_counterexample :
    markAttendance dbPreMark 10 payloadC8 5 none =
      Except.ok (dbOneAbsent, effsC8, 1) ∧
    (getStudentAttendanceStats dbOneAbsent 1 1).status = Standing.CRITICAL ∧
    FanoutEffect.lowAttendanceAlert 20 0 3 Standing.CRITICAL ∈ effsC8 ∧
    (∀ st, FanoutEffect.pushNotification 20 st ∉ effsC8) ∧
    FanoutEffect.emailAlert 20 ∉ effsC8 := by
  refine ⟨markRunC8, ?_, ?_, ?_, ?_⟩
  · simp +decide [getStudentAttendanceStats, enrollmentSessions,
      studentEnrollmentRecords, countStatus, dbOneAbsent]
  · simp [effsC8]
  · intro st
    simp [effsC8]
  · simp [effsC8]

/-- C8 (amended): for every affected student whose recomputed standing is
WARNING or CRITICAL, a low-attendance alert event is published to that
student's personal room, but no push notification and no email alert is
triggered by `markAttendance` or `updateAttendanceRecord` — their fan-out
stops at the websocket emission. -/
theorem C8_amended_fanout (db : DB) (tuid : Nat) (data : MarkAttendanceDTO)
    (now rid : Nat) (udata : UpdateAttendanceDTO) :
    (∀ db' effs c, markAttendance db tuid data now none =
        Except.ok (db', effs, c) →
      (∀ e ∈ effs, (∀ u st, e ≠ FanoutEffect.pushNotification u st) ∧
        (∀ u, e ≠ FanoutEffect.emailAlert u)) ∧
      (∀ session enrollment stu,
        db.sessions.find? (fun s => s.id == data.sessionId) = some session →
        db.enrollments.find? (fun e => e.id == session.subjectEnrollmentId) =
          some enrollment →
        stu ∈ db.students → stu.batchId = some enrollment.batchId →
        (data.records.any (fun r => r.studentId == stu.id)) = true →
        ((getStudentAttendanceStats db' stu.id
            session.subjectEnrollmentId).status = Standing.WARNING ∨
         (getStudentAttendanceStats db' stu.id
            session.subjectEnrollmentId).status = Standing.CRITICAL) →
        ∃ n, FanoutEffect.lowAttendanceAlert stu.userId
          (getStudentAttendanceStats db' stu.id
            session.subjectEnrollmentId).percentage n
          (getStudentAttendanceStats db' stu.id
            session.subjectEnrollmentId).status ∈ effs)) ∧
    (∀ db' effs, updateAttendanceRecord db rid tuid udata false none =
        Except.ok (db', effs) →
      (∀ e ∈ effs, (∀ u st, e ≠ FanoutEffect.pushNotification u st) ∧
        (∀ u, e ≠ FanoutEffect.emailAlert u)) ∧
      (∀ record session student,
        db.records.find? (fun r => r.id == rid) = some record →
        db.sessions.find? (fun s => s.id == record.sessionId) = some session →
        db.students.find? (fun s => s.id == record.studentId) = some student →
        ((getStudentAttendanceStats db' record.studentId
            session.subjectEnrollmentId).status = Standing.WARNING ∨
         (getStudentAttendanceStats db' record.studentId
            session.subjectEnrollmentId).status = Standing.CRITICAL) →
        ∃ n, FanoutEffect.lowAttendanceAlert student.userId
          (getStudentAttendanceStats db' record.studentId
            session.subjectEnrollmentId).percentage n
          (getStudentAttendanceStats db' record.studentId
            session.subjectEnrollmentId).status ∈ effs)) := by
  constructor
  · intro db' effs c h
    obtain ⟨effs0, hcore, heffs⟩ :=
      markAttendance_ok_elim db tuid data now none db' effs c h
    have h0 : effs = effs0 := heffs
    subst h0
    obtain ⟨teacher, session, enrollment, hteacher, hsession, henrollment,
      hown, hdb', hc, heffs0⟩ :=
      markAttendanceCore_ok_elim db tuid data now db' effs c hcore
    subst heffs0
    constructor
    · intro e he
      rcases List.mem_cons.mp he with rfl | he2
      · exact ⟨fun u st => by simp, fun u => by simp⟩
      rcases List.mem_cons.mp he2 with rfl | he3
      · exact ⟨fun u st => by simp, fun u => by simp⟩
      obtain ⟨s, hsmem, hin⟩ := List.mem_flatMap.mp he3
      exact studentFanout_no_push _ _ _ _ e hin
    · intro session2 enrollment2 stu hsession2 henrollment2 hstumem hstubatch
        hstupayload hstat
      rw [hsession] at hsession2
      obtain rfl : session = session2 := Option.some.inj hsession2
      rw [henrollment] at henrollment2
      obtain rfl : enrollment = enrollment2 := Option.some.inj henrollment2
      subst hdb'
      obtain ⟨n, hn⟩ := studentFanout_alert_mem (markDbAfter db data now)
        stu.id stu.userId session.subjectEnrollmentId hstat
      refine ⟨n, ?_⟩
      exact List.mem_cons_of_mem _ (List.mem_cons_of_mem _
        (List.mem_flatMap.mpr ⟨stu,
          List.mem_filter.mpr ⟨List.mem_filter.mpr ⟨hstumem, by simp [hstubatch]⟩,
            hstupayload⟩, hn⟩))
  · intro db' effs h
    obtain ⟨effs0, hcore, heffs⟩ :=
      updateAttendanceRecord_ok_elim db rid tuid udata none db' effs h
    have h0 : effs = effs0 := heffs
    subst h0
    obtain ⟨teacher, record, session, student, hteacher, hrecord, hsession,
      hstudent, hown, hdb', heffs0⟩ :=
      updateAttendanceRecordCore_ok_elim db rid tuid udata db' effs hcore
    subst heffs0
    constructor
    · intro e he
      rcases List.mem_cons.mp he with rfl | he2
      · exact ⟨fun u st => by simp, fun u => by simp⟩
      exact studentFanout_no_push _ _ _ _ e he2
    · intro record2 session2 student2 hrec2 hsess2 hstud2 hstat
      rw [hrecord] at hrec2
      obtain rfl : record = record2 := Option.some.inj hrec2
      rw [hsession] at hsess2
      obtain rfl : session = session2 := Option.some.inj hsess2
      rw [hstudent] at hstud2
      obtain rfl : student = student2 := Option.some.inj hstud2
      subst hdb'
      obtain ⟨n, hn⟩ := studentFanout_alert_mem
        (updateDbAfter db rid record tuid udata) record.studentId
        student.userId session.subjectEnrollmentId hstat
      exact ⟨n, List.mem_cons_of_mem _ hn⟩

theorem C8_amended_fanout_witness :
    (∀ e ∈ effsC8, (∀ u st, e ≠ FanoutEffect.pushNotification u st) ∧
      (∀ u, e ≠ FanoutEffect.emailAlert u)) := by
  have h := ((C8_amended_fanout dbPreMark 10 payloadC8 5 0
    ⟨AttendanceStatus.PRESENT, none⟩).1 dbOneAbsent effsC8 1 markRunC8).1
  exact h

end Attendease
